import Mathlib

/-!
# SEO metadata resolution and tag synchronization: a shallow embedding

This file embeds the functional core of the `ssr-seo-demo` repository in
Lean 4 and proves the specified properties of its SEO tag-management
layer, its detail-page resolver, and its structured-data synchronizer.

Embedded source files:
* `src/app/services/seo.service.ts` (`SeoService`: `setSeoData`,
  `setTitle`, `setDescription`, `setKeywords`, `setCanonicalUrl`,
  `setRobots`, `setOgTags`, `setTwitterTags`, `clearAllTags`);
* `src/app/services/structured-data.service.ts`
  (`StructuredDataService`: `addStructuredData`, `removeStructuredData`,
  `createPersonSchema`, `createOrganizationSchema`, `createWebSiteSchema`,
  `createBreadcrumbSchema`);
* `src/app/services/user.service.ts` (`UserService.getUserById` and the
  mock user store);
* `src/app/services/config.service.ts` (`ConfigService`);
* `src/app/resolvers/user-detail-seo.resolver.ts`
  (`userDetailSeoResolver`).

Modelling conventions:
* TypeScript optional fields become `Option`; JavaScript truthiness of a
  string (`undefined` and `""` are falsy) is `strTruthy`, of an optional
  boolean `boolTruthy`.
* The document head is a `SeoState`: the `<title>` text, a map from meta
  selectors (`name=` / `property=` attribute) to content — Angular's
  `Meta.updateTag` / `Meta.removeTag` maintain at most one meta element
  per selector, so a map abstracts the element list faithfully; document
  order of distinct meta elements is not observable by any property
  proved here — and the list of `link[rel=canonical]` hrefs in document
  order (kept as a list because canonical-uniqueness is itself one of
  the claims).
* `document.querySelector('link[rel="canonical"]').remove()` removes the
  first canonical link; `appendChild` appends at the end: on the href
  list this is `List.tail` followed by appending.
-/

/-- A meta-tag selector: Angular's `Meta` service addresses tags either by
their `name` attribute or by their `property` attribute. -/
inductive MetaKey where
  | name (s : String)
  | prop (s : String)
deriving DecidableEq, Repr

/-- The document-head state mutated by `SeoService`. -/
@[ext]
structure SeoState where
  /-- The `<title>` text (`none` when no title has ever been set). -/
  title : Option String
  /-- Content of the meta tag with the given selector, if present. -/
  metas : MetaKey → Option String
  /-- hrefs of the `link[rel=canonical]` elements, in document order. -/
  canonical : List String

/-- JavaScript truthiness of an optional string: `undefined` and `""` are
falsy. -/
def strTruthy : Option String → Bool
  | none => false
  | some s => s != ""

/-- JavaScript truthiness of an optional boolean. -/
def boolTruthy : Option Bool → Bool
  | none => false
  | some b => b

/-- `x || ''` on an optional string. -/
def strOrEmpty (o : Option String) : String := o.getD ""

/-- Truthiness of `data.keywords && data.keywords.length > 0`. -/
def kwTruthy : Option (List String) → Bool
  | none => false
  | some l => decide (0 < l.length)

/-- `src/app/models/seo-data.interface.ts`: the `SeoData` record consumed
by `SeoService.setSeoData`. All fields are optional in the interface. -/
structure SeoData where
  title : Option String := none
  description : Option String := none
  keywords : Option (List String) := none
  image : Option String := none
  url : Option String := none
  type : Option String := none
  noIndex : Option Bool := none
  author : Option String := none
  publishedTime : Option String := none
  modifiedTime : Option String := none
  siteName : Option String := none
  locale : Option String := none

namespace SeoService

/-- `Meta.updateTag`: update the meta tag with this selector, creating it
if absent. -/
def updateTag (k : MetaKey) (content : String) (s : SeoState) : SeoState :=
  { s with metas := fun k' => if k' = k then some content else s.metas k' }

/-- `Meta.removeTag`: remove the meta tag with this selector. -/
def removeTag (k : MetaKey) (s : SeoState) : SeoState :=
  { s with metas := fun k' => if k' = k then none else s.metas k' }

/-- `setTitle(title)`: `this.titleService.setTitle(title)`. -/
def setTitle (title : String) (s : SeoState) : SeoState :=
  { s with title := some title }

/-- `setDescription(description)`. -/
def setDescription (description : String) (s : SeoState) : SeoState :=
  updateTag (.name "description") description s

/-- `setKeywords(keywords)`: joins with `', '`. -/
def setKeywords (keywords : List String) (s : SeoState) : SeoState :=
  updateTag (.name "keywords") (String.intercalate ", " keywords) s

/-- `setCanonicalUrl(url)`: removes the first existing canonical link (if
any), then appends a fresh one at the end of the head. -/
def setCanonicalUrl (url : String) (s : SeoState) : SeoState :=
  { s with canonical := s.canonical.tail ++ [url] }

/-- `setRobots(shouldIndex)`. -/
def setRobots (shouldIndex : Bool) (s : SeoState) : SeoState :=
  updateTag (.name "robots")
    (if shouldIndex then "index,follow" else "noindex,nofollow") s

/-- The argument record of the private `setOgTags`. -/
structure OgData where
  title : String
  description : String
  image : String
  url : String
  type : String
  siteName : Option String := none
  locale : Option String := none

/-- `setOgTags(data)`: writes the core OG tags unconditionally, the
optional `og:site_name` / `og:locale` only when truthy, then the fixed
image-dimension hints. -/
def setOgTags (d : OgData) (s : SeoState) : SeoState :=
  let s := updateTag (.prop "og:title") d.title s
  let s := updateTag (.prop "og:description") d.description s
  let s := updateTag (.prop "og:image") d.image s
  let s := updateTag (.prop "og:url") d.url s
  let s := updateTag (.prop "og:type") d.type s
  let s := if strTruthy d.siteName then
    updateTag (.prop "og:site_name") (strOrEmpty d.siteName) s else s
  let s := if strTruthy d.locale then
    updateTag (.prop "og:locale") (strOrEmpty d.locale) s else s
  let s := updateTag (.prop "og:image:width") "1200" s
  updateTag (.prop "og:image:height") "630" s

/-- The argument record of the private `setTwitterTags`. -/
structure TwitterData where
  card : String
  title : String
  description : String
  image : String
  site : Option String := none
  creator : Option String := none

/-- `setTwitterTags(data)`. -/
def setTwitterTags (d : TwitterData) (s : SeoState) : SeoState :=
  let s := updateTag (.name "twitter:card") d.card s
  let s := updateTag (.name "twitter:title") d.title s
  let s := updateTag (.name "twitter:description") d.description s
  let s := updateTag (.name "twitter:image") d.image s
  let s := if strTruthy d.site then
    updateTag (.name "twitter:site") (strOrEmpty d.site) s else s
  if strTruthy d.creator then
    updateTag (.name "twitter:creator") (strOrEmpty d.creator) s else s

/-- `setSeoData(data)`: the composite operation, step for step in source
order. -/
def setSeoData (d : SeoData) (s : SeoState) : SeoState :=
  let s := if strTruthy d.title then setTitle (strOrEmpty d.title) s else s
  let s := if strTruthy d.description then
    setDescription (strOrEmpty d.description) s else s
  let s := if kwTruthy d.keywords then
    setKeywords (d.keywords.getD []) s else s
  let s := if strTruthy d.url then setCanonicalUrl (strOrEmpty d.url) s else s
  let s := setRobots (!boolTruthy d.noIndex) s
  let s := setOgTags
    { title := strOrEmpty d.title
      description := strOrEmpty d.description
      image := strOrEmpty d.image
      url := strOrEmpty d.url
      type := if strTruthy d.type then strOrEmpty d.type else "website"
      siteName := d.siteName
      locale := d.locale } s
  let s := setTwitterTags
    { card := "summary_large_image"
      title := strOrEmpty d.title
      description := strOrEmpty d.description
      image := strOrEmpty d.image } s
  let s := if strTruthy d.publishedTime then
    updateTag (.prop "article:published_time") (strOrEmpty d.publishedTime) s
    else s
  let s := if strTruthy d.modifiedTime then
    updateTag (.prop "article:modified_time") (strOrEmpty d.modifiedTime) s
    else s
  if strTruthy d.author then
    updateTag (.name "author") (strOrEmpty d.author) s else s

/-- `clearAllTags()`: removes every managed meta tag and the (first)
canonical link, but never the title. -/
def clearAllTags (s : SeoState) : SeoState :=
  let s := removeTag (.name "description") s
  let s := removeTag (.name "keywords") s
  let s := removeTag (.name "author") s
  let s := removeTag (.name "robots") s
  let s := removeTag (.prop "og:title") s
  let s := removeTag (.prop "og:description") s
  let s := removeTag (.prop "og:image") s
  let s := removeTag (.prop "og:url") s
  let s := removeTag (.prop "og:type") s
  let s := removeTag (.prop "og:site_name") s
  let s := removeTag (.prop "og:locale") s
  let s := removeTag (.name "twitter:card") s
  let s := removeTag (.name "twitter:title") s
  let s := removeTag (.name "twitter:description") s
  let s := removeTag (.name "twitter:image") s
  let s := removeTag (.name "twitter:site") s
  let s := removeTag (.name "twitter:creator") s
  { s with canonical := s.canonical.tail }

end SeoService

/-- The pristine document head: no title, no meta tags, no canonical
link. -/
def initState : SeoState := { title := none, metas := fun _ => none, canonical := [] }

section ReadLemmas

open SeoService

@[simp] theorem updateTag_metas (k : MetaKey) (v : String) (s : SeoState)
    (k' : MetaKey) :
    (updateTag k v s).metas k' = if k' = k then some v else s.metas k' := rfl

@[simp] theorem updateTag_title (k : MetaKey) (v : String) (s : SeoState) :
    (updateTag k v s).title = s.title := rfl

@[simp] theorem updateTag_canonical (k : MetaKey) (v : String) (s : SeoState) :
    (updateTag k v s).canonical = s.canonical := rfl

@[simp] theorem removeTag_metas (k : MetaKey) (s : SeoState) (k' : MetaKey) :
    (removeTag k s).metas k' = if k' = k then none else s.metas k' := rfl

@[simp] theorem removeTag_title (k : MetaKey) (s : SeoState) :
    (removeTag k s).title = s.title := rfl

@[simp] theorem removeTag_canonical (k : MetaKey) (s : SeoState) :
    (removeTag k s).canonical = s.canonical := rfl

@[simp] theorem setTitle_metas (t : String) (s : SeoState) (k : MetaKey) :
    (setTitle t s).metas k = s.metas k := rfl

@[simp] theorem setTitle_title (t : String) (s : SeoState) :
    (setTitle t s).title = some t := rfl

@[simp] theorem setTitle_canonical (t : String) (s : SeoState) :
    (setTitle t s).canonical = s.canonical := rfl

@[simp] theorem setCanonicalUrl_metas (u : String) (s : SeoState) (k : MetaKey) :
    (setCanonicalUrl u s).metas k = s.metas k := rfl

@[simp] theorem setCanonicalUrl_title (u : String) (s : SeoState) :
    (setCanonicalUrl u s).title = s.title := rfl

@[simp] theorem setCanonicalUrl_canonical (u : String) (s : SeoState) :
    (setCanonicalUrl u s).canonical = s.canonical.tail ++ [u] := rfl

@[simp] theorem metas_ite (c : Prop) [Decidable c] (a b : SeoState)
    (k : MetaKey) :
    (if c then a else b).metas k = if c then a.metas k else b.metas k := by
  split <;> rfl

@[simp] theorem title_ite (c : Prop) [Decidable c] (a b : SeoState) :
    (if c then a else b).title = if c then a.title else b.title := by
  split <;> rfl

@[simp] theorem canonical_ite (c : Prop) [Decidable c] (a b : SeoState) :
    (if c then a else b).canonical =
      if c then a.canonical else b.canonical := by
  split <;> rfl

end ReadLemmas

/-! ## Site configuration (`src/app/services/config.service.ts`) -/

namespace ConfigService

def baseUrl : String := "https://angular-ssr-demo.example.com"

def siteName : String := "Angular SSR Demo"

def defaultOgImage : String :=
  "https://images.unsplash.com/photo-1460925895917-afdab827c52f?w=1200&h=630&fit=crop"

def defaultLocale : String := "en_US"

/-- `getFullUrl(path)`: strips a leading slash, then joins onto the base
URL with a single slash. -/
def getFullUrl (path : String) : String :=
  let cleanPath := if path.startsWith "/" then path.drop 1 else path
  baseUrl ++ "/" ++ cleanPath

end ConfigService

/-! ## Users (`src/app/models/user.interface.ts`,
`src/app/services/user.service.ts`) -/

/-- `User.company` (optional nested record). -/
structure Company where
  name : String
  catchPhrase : String
deriving DecidableEq, Repr

/-- `User.address` (optional nested record). -/
structure Address where
  street : String
  city : String
  zipcode : String
deriving DecidableEq, Repr

/-- The `User` interface. `id` is a TypeScript `number`; every id in the
repository is an integer, so it is embedded as `Int`. -/
structure User where
  id : Int
  name : String
  username : String
  email : String
  phone : Option String := none
  website : Option String := none
  company : Option Company := none
  address : Option Address := none
  avatar : Option String := none
  bio : Option String := none
  jobTitle : Option String := none
deriving DecidableEq, Repr

namespace UserService

/-- `mockUsers[0]` of `UserService`. -/
def alice : User :=
  { id := 1
    name := "Alice Johnson"
    username := "alicej"
    email := "alice.johnson@example.com"
    phone := some "+1-555-0101"
    website := some "https://alicejohnson.dev"
    company := some { name := "TechCorp Solutions"
                      catchPhrase := "Innovating the future of technology" }
    address := some { street := "123 Tech Lane", city := "San Francisco"
                      zipcode := "94102" }
    avatar := some "https://images.unsplash.com/photo-1494790108377-be9c29b29330?w=1200&h=630&fit=crop"
    bio := some "Full-stack developer passionate about Angular and TypeScript. Building scalable web applications with modern best practices."
    jobTitle := some "Senior Software Engineer" }

def bob : User :=
  { id := 2
    name := "Bob Martinez"
    username := "bobm"
    email := "bob.martinez@example.com"
    phone := some "+1-555-0102"
    website := some "https://bobmartinez.com"
    company := some { name := "DataDrive Inc"
                      catchPhrase := "Driving data-driven decisions" }
    address := some { street := "456 Data Street", city := "Austin"
                      zipcode := "78701" }
    avatar := some "https://images.unsplash.com/photo-1500648767791-00dcc994a43e?w=1200&h=630&fit=crop"
    bio := some "Data scientist and machine learning enthusiast. Transforming raw data into actionable insights for businesses."
    jobTitle := some "Lead Data Scientist" }

def carol : User :=
  { id := 3
    name := "Carol Wang"
    username := "carolw"
    email := "carol.wang@example.com"
    phone := some "+1-555-0103"
    website := some "https://carolwang.design"
    company := some { name := "Creative Studios"
                      catchPhrase := "Designing experiences that matter" }
    address := some { street := "789 Design Blvd", city := "New York"
                      zipcode := "10001" }
    avatar := some "https://images.unsplash.com/photo-1438761681033-6461ffad8d80?w=1200&h=630&fit=crop"
    bio := some "UX/UI designer with a focus on accessible and inclusive design. Creating beautiful, user-friendly interfaces."
    jobTitle := some "Principal UX Designer" }

def david : User :=
  { id := 4
    name := "David Kumar"
    username := "davidk"
    email := "david.kumar@example.com"
    phone := some "+1-555-0104"
    company := some { name := "CloudScale Systems"
                      catchPhrase := "Scaling to infinity and beyond" }
    address := some { street := "321 Cloud Ave", city := "Seattle"
                      zipcode := "98101" }
    avatar := some "https://images.unsplash.com/photo-1507003211169-0a1dd7228f2d?w=1200&h=630&fit=crop"
    bio := some "DevOps engineer specializing in cloud infrastructure and automation. Building robust, scalable systems."
    jobTitle := some "DevOps Architect" }

def emma : User :=
  { id := 5
    name := "Emma Schmidt"
    username := "emmas"
    email := "emma.schmidt@example.com"
    phone := some "+1-555-0105"
    website := some "https://emmaschmidt.io"
    company := some { name := "SecureNet Technologies"
                      catchPhrase := "Protecting your digital future" }
    address := some { street := "654 Security Way", city := "Boston"
                      zipcode := "02101" }
    avatar := some "https://images.unsplash.com/photo-1487412720507-e7ab37603c6f?w=1200&h=630&fit=crop"
    bio := some "Cybersecurity expert focused on application security and threat prevention. Keeping the web safe."
    jobTitle := some "Security Engineer" }

def mockUsers : List User := [alice, bob, carol, david, emma]

/-- `getUserById(id)`. The incoming id is `Number(route.paramMap.get('id'))`,
a JavaScript number; `none` stands for `NaN` (a non-numeric route
parameter), which compares unequal to every `u.id`. The source is
`this.mockUsers.find(u => u.id === id) || this.mockUsers[0]`: when the
lookup fails it silently falls back to the FIRST mock user
(`mockUsers[0] = alice`). -/
def getUserById (id : Option Int) : User :=
  (mockUsers.find? (fun u => some u.id == id)).getD alice

end UserService

/-! ## Detail-page resolver
(`src/app/resolvers/user-detail-seo.resolver.ts`) -/

/-- `${x}` interpolation of a possibly-undefined string: JavaScript
renders `undefined` as the literal text `"undefined"`. -/
def jsInterp : Option String → String
  | none => "undefined"
  | some s => s

/-- `.filter(Boolean)` over a list of possibly-undefined strings: keeps
exactly the truthy entries. -/
def filterTruthy (l : List (Option String)) : List String :=
  l.filterMap fun o => if strTruthy o then some (strOrEmpty o) else none

/-- The body of `userDetailSeoResolver`'s `map(user => ...)`: builds the
`SeoData` for a user profile page. -/
def userDetailSeoData (u : User) : SeoData :=
  let pageUrl := ConfigService.getFullUrl ("/users/" ++ toString u.id)
  let title := u.name ++ " - User Profile | " ++ ConfigService.siteName
  let description :=
    if strTruthy u.bio then strOrEmpty u.bio
    else
      "View " ++ u.name ++ "\x27s profile. " ++
      (if strTruthy u.jobTitle then
        strOrEmpty u.jobTitle ++ " at " ++
          jsInterp (u.company.map Company.name) ++ ". "
       else "") ++
      "Contact information, professional background, and more."
  let keywords := filterTruthy
    [some "user", some "profile", some u.name, some u.username,
     u.jobTitle, u.company.map Company.name]
  { title := some title
    description := some description
    keywords := some keywords
    image := if strTruthy u.avatar then u.avatar
             else some ConfigService.defaultOgImage
    url := some pageUrl
    type := some "profile"
    author := some u.name
    siteName := some ConfigService.siteName }

/-- `userDetailSeoResolver`: extract the id, look the user up (with the
fallback baked into `getUserById`), map to `SeoData`. -/
def userDetailSeoResolver (id : Option Int) : SeoData :=
  userDetailSeoData (UserService.getUserById id)

/-! ## Structured data (`src/app/models/structured-data.ts`,
`src/app/services/structured-data.service.ts`)

The schema records below model exactly the fields the service's builders
ever construct (the interfaces allow further optional fields — e.g.
`addressRegion`, `sameAs`, `foundingDate` — which no code in the
repository sets, so they are omitted from the embedding). JSON-LD
serialization (`JSON.stringify(data, null, 2)`) is not modelled: the
script store holds the document values themselves. -/

/-- The nested `PostalAddress` value built by `createPersonSchema`. -/
structure PersonAddress where
  atType : String
  streetAddress : String
  addressLocality : String
  postalCode : String
deriving DecidableEq, Repr

/-- The nested `ContactPoint` value built by `createOrganizationSchema`.
`email` is stored as given, including `undefined`. -/
structure ContactPoint where
  atType : String
  contactType : String
  telephone : String
  email : Option String
deriving DecidableEq, Repr

/-- `PersonSchema` (as built: `worksFor` is always the simple-string
variant). `atContext`/`atType` stand for `@context`/`@type`. -/
structure PersonSchema where
  atContext : String
  atType : String
  name : String
  jobTitle : Option String := none
  email : Option String := none
  telephone : Option String := none
  image : Option String := none
  url : Option String := none
  address : Option PersonAddress := none
  worksFor : Option String := none
deriving DecidableEq, Repr

/-- `OrganizationSchema` (as built). -/
structure OrganizationSchema where
  atContext : String
  atType : String
  name : String
  url : String
  description : Option String := none
  logo : Option String := none
  contactPoint : Option ContactPoint := none
deriving DecidableEq, Repr

/-- The nested `SearchAction` value (`query-input` field renamed to
`queryInput`). -/
structure SearchAction where
  atType : String
  target : String
  queryInput : String
deriving DecidableEq, Repr

/-- `WebSiteSchema` (as built). -/
structure WebSiteSchema where
  atContext : String
  atType : String
  name : String
  url : String
  description : Option String := none
  potentialAction : Option SearchAction := none
deriving DecidableEq, Repr

/-- One entry of `BreadcrumbListSchema.itemListElement`. -/
structure BreadcrumbItem where
  atType : String
  position : Nat
  name : String
  item : Option String := none
deriving DecidableEq, Repr

/-- `BreadcrumbListSchema`. -/
structure BreadcrumbListSchema where
  atContext : String
  atType : String
  itemListElement : List BreadcrumbItem
deriving DecidableEq, Repr

/-- Input to `createBreadcrumbSchema`: `{ name: string; url?: string }`. -/
structure Crumb where
  name : String
  url : Option String := none
deriving DecidableEq, Repr

/-- Input record of `createOrganizationSchema`. -/
structure OrgInput where
  name : String
  url : String
  description : Option String := none
  logo : Option String := none
  contactEmail : Option String := none
  contactPhone : Option String := none
deriving DecidableEq, Repr

/-- Input record of `createWebSiteSchema`. -/
structure WebInput where
  name : String
  url : String
  description : Option String := none
  searchUrl : Option String := none
deriving DecidableEq, Repr

/-- The tagged union of JSON-LD documents the repository constructs
(`StructuredData` in the source is an open `@context`/`@type` record;
the four variants below are the ones ever built or stored). -/
inductive StructuredData where
  | person (p : PersonSchema)
  | organization (o : OrganizationSchema)
  | website (w : WebSiteSchema)
  | breadcrumb (b : BreadcrumbListSchema)
deriving DecidableEq, Repr

namespace StructuredDataService

/-- `createPersonSchema(user)`: required `@context`/`@type`/`name`, then
each optional property only when the source value is truthy. -/
def createPersonSchema (u : User) : PersonSchema :=
  { atContext := "https://schema.org/"
    atType := "Person"
    name := u.name
    jobTitle := if strTruthy u.jobTitle then u.jobTitle else none
    email := if u.email != "" then some u.email else none
    telephone := if strTruthy u.phone then u.phone else none
    image := if strTruthy u.avatar then u.avatar else none
    url := if strTruthy u.website then u.website else none
    address := u.address.map fun a =>
      { atType := "PostalAddress"
        streetAddress := a.street
        addressLocality := a.city
        postalCode := a.zipcode }
    worksFor := u.company.map Company.name }

/-- `createOrganizationSchema(data)`. Note the source's
`telephone: data.contactPhone || ''` inside the conditionally-built
`contactPoint`. -/
def createOrganizationSchema (d : OrgInput) : OrganizationSchema :=
  { atContext := "https://schema.org/"
    atType := "Organization"
    name := d.name
    url := d.url
    description := if strTruthy d.description then d.description else none
    logo := if strTruthy d.logo then d.logo else none
    contactPoint :=
      if strTruthy d.contactPhone || strTruthy d.contactEmail then
        some { atType := "ContactPoint"
               contactType := "customer service"
               telephone := strOrEmpty d.contactPhone
               email := d.contactEmail }
      else none }

/-- `createWebSiteSchema(data)`. -/
def createWebSiteSchema (d : WebInput) : WebSiteSchema :=
  { atContext := "https://schema.org/"
    atType := "WebSite"
    name := d.name
    url := d.url
    description := if strTruthy d.description then d.description else none
    potentialAction :=
      if strTruthy d.searchUrl then
        some { atType := "SearchAction"
               target := strOrEmpty d.searchUrl
               queryInput := "required name=search_term_string" }
      else none }

/-- `breadcrumbs.map((crumb, index) => ...)`: JavaScript `Array.map` with
its index argument, embedded with an explicit counter. -/
def mapCrumbs : Nat → List Crumb → List BreadcrumbItem
  | _, [] => []
  | i, c :: rest =>
    { atType := "ListItem"
      position := i + 1
      name := c.name
      item := if strTruthy c.url then c.url else none } :: mapCrumbs (i + 1) rest

/-- `createBreadcrumbSchema(breadcrumbs)`. -/
def createBreadcrumbSchema (bs : List Crumb) : BreadcrumbListSchema :=
  { atContext := "https://schema.org/"
    atType := "BreadcrumbList"
    itemListElement := mapCrumbs 0 bs }

/-- The `<script>` elements of the head relevant to structured data:
`(element id, document)` pairs in document order. -/
abbrev SDState := List (String × StructuredData)

/-- `getScriptId(id)`: derived element id. -/
def getScriptId (id : String) : String := "structured-data-" ++ id

/-- `document.getElementById(eid)?.remove()`: removes the first element
whose id matches, keeps the rest. -/
def removeElementById (eid : String) : SDState → SDState
  | [] => []
  | e :: rest => if e.1 = eid then rest else e :: removeElementById eid rest

/-- `removeStructuredData(id)`: no-op if absent, else deletes the script
at the derived key. -/
def removeStructuredData (id : String) (s : SDState) : SDState :=
  removeElementById (getScriptId id) s

/-- `addStructuredData(data, id)`: removes any existing script with the
derived id, then appends a fresh one to the head. -/
def addStructuredData (data : StructuredData) (id : String) (s : SDState) :
    SDState :=
  removeStructuredData id s ++ [(getScriptId id, data)]

/-- The documents stored under a given element id (observation used by the
isolation claims). -/
def docsAt (eid : String) (s : SDState) : List StructuredData :=
  (s.filter fun e => e.1 == eid).map Prod.snd

end StructuredDataService

/-! ## Auxiliary definitions for the statements -/

/-- The meta selectors `SeoService` ever writes (through `setSeoData`).
`twitter:site` / `twitter:creator` are removable by `clearAllTags` but
never written. -/
def managedMetaKeys : List MetaKey :=
  [.name "description", .name "keywords", .name "robots", .name "author",
   .name "twitter:card", .name "twitter:title", .name "twitter:description",
   .name "twitter:image",
   .prop "og:title", .prop "og:description", .prop "og:image",
   .prop "og:url", .prop "og:type", .prop "og:site_name", .prop "og:locale",
   .prop "og:image:width", .prop "og:image:height",
   .prop "article:published_time", .prop "article:modified_time"]

/-- Head-tag states reachable from the pristine document head by
`setSeoData` (`applyPageMetadata`) calls. -/
inductive ReachS : SeoState → Prop where
  | init : ReachS initState
  | step (d : SeoData) {s : SeoState} :
      ReachS s → ReachS (SeoService.setSeoData d s)

/-- Head-tag states reachable from a head with no canonical link by
`setSeoData` and `setCanonicalUrl` calls. -/
inductive ReachC : SeoState → Prop where
  | start (s : SeoState) (h : s.canonical = []) : ReachC s
  | stepSeo (d : SeoData) {s : SeoState} :
      ReachC s → ReachC (SeoService.setSeoData d s)
  | stepCanon (u : String) {s : SeoState} :
      ReachC s → ReachC (SeoService.setCanonicalUrl u s)

/-- The end-to-end sample metadata of spec §8 scenario 1. -/
def sampleSeoData : SeoData :=
  { title := some "Test Title"
    description := some "Test Description"
    image := some "https://example.com/image.jpg"
    url := some "https://example.com/page"
    type := some "website"
    siteName := some "Test Site"
    locale := some "en_US" }

/-- A metadata value setting every conditionally-written field. -/
def completeSeoData : SeoData :=
  { sampleSeoData with
    keywords := some ["a", "b", "c"]
    author := some "Jane Roe"
    publishedTime := some "2024-01-15T10:30:00Z"
    modifiedTime := some "2024-02-15T10:30:00Z" }

/-- Metadata with title and description but nothing else. -/
def c2dataWithDescription : SeoData :=
  { title := some "A", description := some "D1" }

/-- Metadata with a title only. -/
def c2dataTitleOnly : SeoData := { title := some "A" }

/-- The subsequent metadata of the C2 counterexample: sets a title but no
description. -/
def c2dataNew : SeoData := { title := some "B" }

/-- Organization input with a contact email but no contact phone. -/
def c8orgInput : OrgInput :=
  { name := "Acme", url := "https://acme.example"
    contactEmail := some "hello@acme.example" }

/-- A concrete website document for the structured-data scenario. -/
def c9docX : StructuredData :=
  .website (StructuredDataService.createWebSiteSchema
    { name := "Test Site", url := "https://example.com" })

/-- A concrete person document for the structured-data scenario. -/
def c9docY : StructuredData :=
  .person (StructuredDataService.createPersonSchema UserService.alice)

/-- Concrete breadcrumbs used by witnesses. -/
def c8crumbs : List Crumb :=
  [{ name := "Home", url := some "https://example.com" },
   { name := "Users", url := some "https://example.com/users" },
   { name := "John Doe" }]

/-! ## Helper lemmas -/

theorem strOrEmpty_eq_empty_of_not_truthy {o : Option String}
    (h : strTruthy o = false) : strOrEmpty o = "" := by
  cases o with
  | none => rfl
  | some s => simpa [strTruthy, strOrEmpty] using h

theorem strOrEmpty_ne_empty_of_truthy {o : Option String}
    (h : strTruthy o = true) : strOrEmpty o ≠ "" := by
  cases o with
  | none => simp [strTruthy] at h
  | some s => simpa [strTruthy, strOrEmpty] using h

@[simp] theorem strTruthy_none : strTruthy none = false := rfl

@[simp] theorem kwTruthy_none : kwTruthy none = false := rfl

@[simp] theorem boolTruthy_none : boolTruthy none = false := rfl

theorem tail_eq_nil_of_length_le_one {α : Type} {l : List α}
    (h : l.length ≤ 1) : l.tail = [] := by
  cases l with
  | nil => rfl
  | cons a t =>
    cases t with
    | nil => rfl
    | cons b t2 => simp at h

/-- Reading the document title through `setSeoData`. -/
theorem setSeoData_title (d : SeoData) (s : SeoState) :
    (SeoService.setSeoData d s).title =
      if strTruthy d.title then some (strOrEmpty d.title) else s.title := by
  simp [SeoService.setSeoData, SeoService.setOgTags, SeoService.setTwitterTags,
    SeoService.setRobots, SeoService.setDescription, SeoService.setKeywords]

/-- Reading the canonical-link list through `setSeoData`. -/
theorem setSeoData_canonical (d : SeoData) (s : SeoState) :
    (SeoService.setSeoData d s).canonical =
      if strTruthy d.url then s.canonical.tail ++ [strOrEmpty d.url]
      else s.canonical := by
  simp [SeoService.setSeoData, SeoService.setOgTags, SeoService.setTwitterTags,
    SeoService.setRobots, SeoService.setDescription, SeoService.setKeywords]

/-- `setSeoData` never touches a meta selector outside the managed set. -/
theorem setSeoData_metas_unmanaged (d : SeoData) (s : SeoState) (k : MetaKey)
    (hk : k ∉ managedMetaKeys) :
    (SeoService.setSeoData d s).metas k = s.metas k := by
  simp only [managedMetaKeys, List.mem_cons, List.not_mem_nil, or_false] at hk
  push_neg at hk
  obtain ⟨h1, h2, h3, h4, h5, h6, h7, h8, h9, h10, h11, h12, h13, h14, h15,
    h16, h17, h18, h19⟩ := hk
  simp [SeoService.setSeoData, SeoService.setOgTags, SeoService.setTwitterTags,
    SeoService.setRobots, SeoService.setDescription, SeoService.setKeywords,
    h1, h2, h3, h4, h5, h6, h7, h8, h9, h10, h11, h12, h13, h14, h15, h16,
    h17, h18, h19]

/-- States reachable by `setSeoData` calls carry no meta tag outside the
managed set. -/
theorem ReachS.metas_none {s : SeoState} (h : ReachS s) (k : MetaKey)
    (hk : k ∉ managedMetaKeys) : s.metas k = none := by
  induction h with
  | init => rfl
  | step d hr ih => rw [setSeoData_metas_unmanaged d _ k hk]; exact ih

/-- States reachable by `setSeoData` calls have at most one canonical
link. -/
theorem reachS_canonical_length {s : SeoState} (h : ReachS s) :
    s.canonical.length ≤ 1 := by
  induction h with
  | init => simp [initState]
  | step d hr ih =>
    rw [setSeoData_canonical]
    split_ifs
    · simp only [List.length_append, List.length_tail, List.length_singleton]
      omega
    · exact ih

/-- States reachable from a canonical-free head by `setSeoData` and
`setCanonicalUrl` calls have at most one canonical link. -/
theorem reachC_canonical_length {s : SeoState} (h : ReachC s) :
    s.canonical.length ≤ 1 := by
  induction h with
  | start s h => simp [h]
  | stepSeo d hr ih =>
    rw [setSeoData_canonical]
    split_ifs
    · simp only [List.length_append, List.length_tail, List.length_singleton]
      omega
    · exact ih
  | stepCanon u hr ih =>
    simp only [SeoService.setCanonicalUrl, List.length_append,
      List.length_tail, List.length_singleton]
    omega

/-! ## C3: robots directive totality -/

/-- **C3.** For every `SeoData` value, after `setSeoData` the
`name=robots` meta tag is present, and its content equals
`"index,follow"` if and only if the `noIndex` field is falsy, otherwise
`"noindex,nofollow"`. -/
theorem c3_robots_totality (d : SeoData) (s : SeoState) :
    (SeoService.setSeoData d s).metas (.name "robots") =
      some (if boolTruthy d.noIndex then "noindex,nofollow"
            else "index,follow") ∧
    ((SeoService.setSeoData d s).metas (.name "robots") =
        some "index,follow" ↔ boolTruthy d.noIndex = false) := by
  have h : (SeoService.setSeoData d s).metas (.name "robots") =
      some (if boolTruthy d.noIndex then "noindex,nofollow"
            else "index,follow") := by
    simp [SeoService.setSeoData, SeoService.setOgTags,
      SeoService.setTwitterTags, SeoService.setRobots,
      SeoService.setDescription, SeoService.setKeywords]
    cases boolTruthy d.noIndex <;> simp
  refine ⟨h, ?_⟩
  rw [h]
  cases boolTruthy d.noIndex <;> simp

/-! ## C6: Open-Graph and Twitter tag groups -/

/-- **C6.** For every `SeoData` value, `setSeoData` always writes
`og:title`, `og:description`, `og:image`, `og:url` (absent fields passed
through as empty strings), `og:type` (defaulting to `"website"`), the
fixed dimension hints `og:image:width="1200"` / `og:image:height="630"`;
writes `og:site_name` and `og:locale` only when present (otherwise the
prior tag is untouched); and always writes
`twitter:card="summary_large_image"`, `twitter:title`,
`twitter:description`, `twitter:image` with the same forced-empty-string
policy. -/
theorem c6_og_twitter_tags (d : SeoData) (s : SeoState) :
    (SeoService.setSeoData d s).metas (.prop "og:title") =
      some (strOrEmpty d.title) ∧
    (SeoService.setSeoData d s).metas (.prop "og:description") =
      some (strOrEmpty d.description) ∧
    (SeoService.setSeoData d s).metas (.prop "og:image") =
      some (strOrEmpty d.image) ∧
    (SeoService.setSeoData d s).metas (.prop "og:url") =
      some (strOrEmpty d.url) ∧
    (SeoService.setSeoData d s).metas (.prop "og:type") =
      some (if strTruthy d.type then strOrEmpty d.type else "website") ∧
    (SeoService.setSeoData d s).metas (.prop "og:image:width") =
      some "1200" ∧
    (SeoService.setSeoData d s).metas (.prop "og:image:height") =
      some "630" ∧
    (SeoService.setSeoData d s).metas (.prop "og:site_name") =
      (if strTruthy d.siteName then some (strOrEmpty d.siteName)
       else s.metas (.prop "og:site_name")) ∧
    (SeoService.setSeoData d s).metas (.prop "og:locale") =
      (if strTruthy d.locale then some (strOrEmpty d.locale)
       else s.metas (.prop "og:locale")) ∧
    (SeoService.setSeoData d s).metas (.name "twitter:card") =
      some "summary_large_image" ∧
    (SeoService.setSeoData d s).metas (.name "twitter:title") =
      some (strOrEmpty d.title) ∧
    (SeoService.setSeoData d s).metas (.name "twitter:description") =
      some (strOrEmpty d.description) ∧
    (SeoService.setSeoData d s).metas (.name "twitter:image") =
      some (strOrEmpty d.image) := by
  refine ⟨?_, ?_, ?_, ?_, ?_, ?_, ?_, ?_, ?_, ?_, ?_, ?_, ?_⟩ <;>
    simp [SeoService.setSeoData, SeoService.setOgTags,
      SeoService.setTwitterTags, SeoService.setRobots,
      SeoService.setDescription, SeoService.setKeywords]

/-! ## C10: absent title/description/keywords are sticky, but the OG and
Twitter mirrors are forced to the empty string -/

/-- **C10.** Three independent per-field properties of `setSeoData`.
Whenever `title` alone is absent or empty, the document title is left
unchanged while `og:title` and `twitter:title` are still written with the
empty string; whenever `description` alone is absent or empty,
`name=description` is left unchanged while its OG/Twitter mirrors are
forced empty; and whenever `keywords` alone is absent or empty,
`name=keywords` is left unchanged. Each conjunct assumes only its own
field's absence. -/
theorem c10_absent_fields_sticky (d : SeoData) (s : SeoState) :
    (strTruthy d.title = false →
      (SeoService.setSeoData d s).title = s.title ∧
      (SeoService.setSeoData d s).metas (.prop "og:title") = some "" ∧
      (SeoService.setSeoData d s).metas (.name "twitter:title") =
        some "") ∧
    (strTruthy d.description = false →
      (SeoService.setSeoData d s).metas (.name "description") =
        s.metas (.name "description") ∧
      (SeoService.setSeoData d s).metas (.prop "og:description") =
        some "" ∧
      (SeoService.setSeoData d s).metas (.name "twitter:description") =
        some "") ∧
    (kwTruthy d.keywords = false →
      (SeoService.setSeoData d s).metas (.name "keywords") =
        s.metas (.name "keywords")) := by
  refine ⟨fun ht => ⟨?_, ?_, ?_⟩, fun hd => ⟨?_, ?_, ?_⟩, fun hk => ?_⟩
  · simp [setSeoData_title, ht]
  · simp [SeoService.setSeoData, SeoService.setOgTags,
      SeoService.setTwitterTags, SeoService.setRobots,
      SeoService.setDescription, SeoService.setKeywords,
      strOrEmpty_eq_empty_of_not_truthy ht]
  · simp [SeoService.setSeoData, SeoService.setOgTags,
      SeoService.setTwitterTags, SeoService.setRobots,
      SeoService.setDescription, SeoService.setKeywords,
      strOrEmpty_eq_empty_of_not_truthy ht]
  · simp [SeoService.setSeoData, SeoService.setOgTags,
      SeoService.setTwitterTags, SeoService.setRobots,
      SeoService.setDescription, SeoService.setKeywords, hd]
  · simp [SeoService.setSeoData, SeoService.setOgTags,
      SeoService.setTwitterTags, SeoService.setRobots,
      SeoService.setDescription, SeoService.setKeywords,
      strOrEmpty_eq_empty_of_not_truthy hd]
  · simp [SeoService.setSeoData, SeoService.setOgTags,
      SeoService.setTwitterTags, SeoService.setRobots,
      SeoService.setDescription, SeoService.setKeywords,
      strOrEmpty_eq_empty_of_not_truthy hd]
  · simp [SeoService.setSeoData, SeoService.setOgTags,
      SeoService.setTwitterTags, SeoService.setRobots,
      SeoService.setDescription, SeoService.setKeywords, hk]

/-- Witness for C10: a partial update (title absent, description and
keywords present) exercises the title clause alone, and the empty
metadata on the pristine head exercises the other two clauses. -/
theorem c10_absent_fields_sticky_witness :
    (SeoService.setSeoData
        { description := some "D1", keywords := some ["k"] }
        (SeoService.setSeoData sampleSeoData initState)).title =
      (SeoService.setSeoData sampleSeoData initState).title ∧
    (SeoService.setSeoData {} initState).metas (.prop "og:description") =
      some "" ∧
    (SeoService.setSeoData {} initState).metas (.name "keywords") =
      initState.metas (.name "keywords") :=
  ⟨((c10_absent_fields_sticky
      { description := some "D1", keywords := some ["k"] }
      (SeoService.setSeoData sampleSeoData initState)).1 (by decide)).1,
   ((c10_absent_fields_sticky {} initState).2.1 (by decide)).2.1,
   (c10_absent_fields_sticky {} initState).2.2 (by decide)⟩

/-! ## C5: idempotence of `setSeoData` -/

/-- **C5.** For every metadata value and every head-tag state (satisfying
the `HeadTagSet` invariant of at most one tag per key — here: at most one
canonical link), applying `setSeoData` twice in a row yields a head
identical to applying it once: no duplicate canonical links, no duplicate
OG tags. -/
theorem c5_idempotence (d : SeoData) (s : SeoState)
    (hs : s.canonical.length ≤ 1) :
    SeoService.setSeoData d (SeoService.setSeoData d s) =
      SeoService.setSeoData d s := by
  apply SeoState.ext
  · rw [setSeoData_title, setSeoData_title]
    split_ifs <;> rfl
  · funext k
    by_cases hk : k ∈ managedMetaKeys
    · simp only [managedMetaKeys, List.mem_cons, List.not_mem_nil,
        or_false] at hk
      rcases hk with rfl | rfl | rfl | rfl | rfl | rfl | rfl | rfl | rfl |
        rfl | rfl | rfl | rfl | rfl | rfl | rfl | rfl | rfl | rfl <;>
        simp [SeoService.setSeoData, SeoService.setOgTags,
          SeoService.setTwitterTags, SeoService.setRobots,
          SeoService.setDescription, SeoService.setKeywords] <;>
        split_ifs <;> simp_all
    · rw [setSeoData_metas_unmanaged d _ k hk,
        setSeoData_metas_unmanaged d _ k hk]
  · simp only [setSeoData_canonical]
    split_ifs with h
    · rw [tail_eq_nil_of_length_le_one hs]
      simp
    · rfl

/-- C5 witness: the spec §8 sample metadata applied twice to the pristine
head. -/
theorem c5_idempotence_witness :
    initState.canonical.length ≤ 1 ∧
    SeoService.setSeoData sampleSeoData
        (SeoService.setSeoData sampleSeoData initState) =
      SeoService.setSeoData sampleSeoData initState :=
  ⟨by decide, c5_idempotence sampleSeoData initState (by decide)⟩

/-! ## C4: canonical uniqueness -/

/-- **C4.** Along every sequence of `setSeoData` and `setCanonicalUrl`
calls starting from a head with no canonical link, at most one
`link[rel=canonical]` element exists at any time, and setting a canonical
URL removes any existing canonical link before inserting exactly one new
one. -/
theorem c4_canonical_uniqueness (s : SeoState) (h : ReachC s) :
    s.canonical.length ≤ 1 ∧
    ∀ u : String, (SeoService.setCanonicalUrl u s).canonical = [u] := by
  refine ⟨reachC_canonical_length h, fun u => ?_⟩
  simp [SeoService.setCanonicalUrl,
    tail_eq_nil_of_length_le_one (reachC_canonical_length h)]

/-- C4 witness at the concrete canonical-free head. -/
theorem c4_canonical_uniqueness_witness :
    initState.canonical.length ≤ 1 ∧
    (SeoService.setCanonicalUrl "https://example.com/page"
        initState).canonical = ["https://example.com/page"] :=
  ⟨(c4_canonical_uniqueness initState (ReachC.start initState rfl)).1,
   (c4_canonical_uniqueness initState (ReachC.start initState rfl)).2
     "https://example.com/page"⟩

/-! ## C2: determinism of `setSeoData` across prior states -/

/-- **C2 (counterexample).** The claim fails for `name=description`
(which is none of the claim's allowed exceptions): from two states, both
reachable by prior `setSeoData` calls, applying the same metadata (with
no description) leaves `name=description` equal to `some "D1"` in one and
absent in the other. -/
theorem c2_counterexample :
    ReachS (SeoService.setSeoData c2dataWithDescription initState) ∧
    ReachS (SeoService.setSeoData c2dataTitleOnly initState) ∧
    (SeoService.setSeoData c2dataNew
        (SeoService.setSeoData c2dataWithDescription initState)).metas
      (.name "description") = some "D1" ∧
    (SeoService.setSeoData c2dataNew
        (SeoService.setSeoData c2dataTitleOnly initState)).metas
      (.name "description") = none :=
  ⟨ReachS.step _ ReachS.init, ReachS.step _ ReachS.init,
   by decide, by decide⟩

/-- **C2 (amended).** The title, description, keywords, canonical-URL,
`og:site_name` and `og:locale` tags are sticky-by-omission exactly like
the article tags. When the applied metadata sets every conditional field
(title, description, non-empty keywords, url, siteName, locale, author,
publishedTime, modifiedTime all truthy), `setSeoData` leaves the head in
the same final state regardless of which reachable state it started
from. -/
theorem c2_amended_determinism (d : SeoData) {s1 s2 : SeoState}
    (h1 : ReachS s1) (h2 : ReachS s2)
    (ht : strTruthy d.title = true)
    (hd : strTruthy d.description = true)
    (hkw : kwTruthy d.keywords = true)
    (hu : strTruthy d.url = true)
    (hsn : strTruthy d.siteName = true)
    (hl : strTruthy d.locale = true)
    (ha : strTruthy d.author = true)
    (hp : strTruthy d.publishedTime = true)
    (hm : strTruthy d.modifiedTime = true) :
    SeoService.setSeoData d s1 = SeoService.setSeoData d s2 := by
  apply SeoState.ext
  · rw [setSeoData_title, setSeoData_title]
    simp [ht]
  · funext k
    by_cases hk : k ∈ managedMetaKeys
    · simp only [managedMetaKeys, List.mem_cons, List.not_mem_nil,
        or_false] at hk
      rcases hk with rfl | rfl | rfl | rfl | rfl | rfl | rfl | rfl | rfl |
        rfl | rfl | rfl | rfl | rfl | rfl | rfl | rfl | rfl | rfl <;>
        simp [SeoService.setSeoData, SeoService.setOgTags,
          SeoService.setTwitterTags, SeoService.setRobots,
          SeoService.setDescription, SeoService.setKeywords,
          ht, hd, hkw, hu, hsn, hl, ha, hp, hm]
    · rw [setSeoData_metas_unmanaged d _ k hk,
        setSeoData_metas_unmanaged d _ k hk,
        h1.metas_none k hk, h2.metas_none k hk]
  · rw [setSeoData_canonical, setSeoData_canonical,
      tail_eq_nil_of_length_le_one (reachS_canonical_length h1),
      tail_eq_nil_of_length_le_one (reachS_canonical_length h2)]
    simp [hu]

/-- C2 (amended) witness: complete metadata applied from the pristine
head and from a previously-populated reachable head. -/
theorem c2_amended_determinism_witness :
    SeoService.setSeoData completeSeoData initState =
      SeoService.setSeoData completeSeoData
        (SeoService.setSeoData c2dataWithDescription initState) :=
  c2_amended_determinism completeSeoData ReachS.init
    (ReachS.step _ ReachS.init) (by decide) (by decide) (by decide)
    (by decide) (by decide) (by decide) (by decide) (by decide) (by decide)

/-! ## C1: missing-entity lookups -/

/-- **C1 (evaluation at the failing input).** The code violates the
claim: no mock user has id `9999`, yet `getUserById(9999)` (and the
`NaN` case arising from a non-numeric route parameter) silently returns
the FIRST mock user, Alice Johnson, and the detail resolver then builds
her metadata instead of failing with a distinguishable
`EntityNotFound`. -/
theorem c1_lookup_fallback_eval :
    UserService.mockUsers.all (fun u => u.id != 9999) = true ∧
    UserService.getUserById (some 9999) = UserService.alice ∧
    UserService.getUserById none = UserService.alice ∧
    (userDetailSeoResolver (some 9999)).title =
      some "Alice Johnson - User Profile | Angular SSR Demo" ∧
    UserService.mockUsers.head? = some UserService.alice :=
  ⟨by decide, by decide, by decide, by decide, rfl⟩

/-! ## C7: detail-page metadata on successful lookup -/

/-- A truthy member of the candidate list survives `.filter(Boolean)`. -/
theorem mem_filterTruthy_of_mem (l : List (Option String)) (o : Option String)
    (h : strTruthy o = true) (hm : o ∈ l) : strOrEmpty o ∈ filterTruthy l := by
  simp only [filterTruthy, List.mem_filterMap]
  exact ⟨o, hm, by simp [h]⟩

/-- Every element surviving `.filter(Boolean)` is non-empty. -/
theorem filterTruthy_ne_empty (l : List (Option String)) :
    ∀ x ∈ filterTruthy l, x ≠ "" := by
  intro x hx
  simp only [filterTruthy, List.mem_filterMap] at hx
  obtain ⟨o, _, hfo⟩ := hx
  by_cases h : strTruthy o = true
  · rw [if_pos h] at hfo
    cases hfo
    exact strOrEmpty_ne_empty_of_truthy h
  · rw [if_neg h] at hfo
    cases hfo

/-- **C7.** For every successfully looked-up entity: the title
interpolates the display name; the description is the bio verbatim when
present, else the templated fallback whose job-title segment is included
only when the job title is non-empty; the keywords collect entity-derived
terms with empty ones filtered out; the image is the avatar or the site
default; and the page type is `"profile"`. The last three conjuncts are
the spec §8 end-to-end scenario for id 1. -/
theorem c7_detail_metadata (u : User) :
    (userDetailSeoData u).title =
      some (u.name ++ " - User Profile | " ++ ConfigService.siteName) ∧
    (strTruthy u.bio = true → (userDetailSeoData u).description = u.bio) ∧
    (strTruthy u.bio = false → strTruthy u.jobTitle = false →
      (userDetailSeoData u).description =
        some ("View " ++ u.name ++ "\x27s profile. " ++
          "Contact information, professional background, and more.")) ∧
    (∀ kw ∈ (userDetailSeoData u).keywords.getD [], kw ≠ "") ∧
    "user" ∈ (userDetailSeoData u).keywords.getD [] ∧
    "profile" ∈ (userDetailSeoData u).keywords.getD [] ∧
    (strTruthy u.jobTitle = true →
      strOrEmpty u.jobTitle ∈ (userDetailSeoData u).keywords.getD []) ∧
    (userDetailSeoData u).image =
      (if strTruthy u.avatar then u.avatar
       else some ConfigService.defaultOgImage) ∧
    (userDetailSeoData u).type = some "profile" ∧
    (userDetailSeoResolver (some 1)).title =
      some "Alice Johnson - User Profile | Angular SSR Demo" ∧
    (userDetailSeoResolver (some 1)).description = UserService.alice.bio ∧
    (userDetailSeoResolver (some 1)).type = some "profile" := by
  refine ⟨by simp [userDetailSeoData], ?_, ?_, ?_, ?_, ?_, ?_,
    by simp [userDetailSeoData], by simp [userDetailSeoData],
    by decide, by decide, by decide⟩
  · intro hb
    cases hbio : u.bio with
    | none => rw [hbio] at hb; simp [strTruthy] at hb
    | some s =>
      simp [userDetailSeoData, hbio, strTruthy] at hb ⊢
      simp [hb, strOrEmpty]
  · intro hb hj
    simp [userDetailSeoData, hb, hj]
  · intro kw hkw
    simp only [userDetailSeoData, Option.getD_some] at hkw
    exact filterTruthy_ne_empty _ kw hkw
  · simp only [userDetailSeoData, Option.getD_some]
    exact mem_filterTruthy_of_mem _ (some "user") (by simp [strTruthy])
      (by simp)
  · simp only [userDetailSeoData, Option.getD_some]
    exact mem_filterTruthy_of_mem _ (some "profile") (by simp [strTruthy])
      (by simp)
  · intro hj
    simp only [userDetailSeoData, Option.getD_some]
    exact mem_filterTruthy_of_mem _ u.jobTitle hj (by simp)

/-- C7 witness: the bio-present and job-title implications discharged at
Alice Johnson. -/
theorem c7_detail_metadata_witness :
    (userDetailSeoData UserService.alice).description =
      UserService.alice.bio ∧
    strOrEmpty UserService.alice.jobTitle ∈
      (userDetailSeoData UserService.alice).keywords.getD [] := by
  obtain ⟨-, h2, -, -, -, -, h7, -⟩ := c7_detail_metadata UserService.alice
  exact ⟨h2 (by decide), h7 (by decide)⟩

/-! ## C8: structured-data schema builders -/

/-- **C8 (counterexample).** The claim's "never emitting empty-string
placeholders for absent values" fails: with a contact email but no
contact phone, `createOrganizationSchema` emits a `contactPoint` whose
`telephone` is the empty-string placeholder `""` (from
`data.contactPhone || ''`). -/
theorem c8_counterexample :
    c8orgInput.contactPhone = none ∧
    (StructuredDataService.createOrganizationSchema
        c8orgInput).contactPoint.map ContactPoint.telephone = some "" := by
  exact ⟨rfl, by decide⟩

/-- Presence of a truthiness-gated optional field. -/
theorem isSome_if_empty (v : String) :
    (if v = "" then none else some v).isSome = (v != "") := by
  by_cases hv : v = "" <;> simp [hv]

/-- `mapCrumbs` preserves the list length. -/
theorem mapCrumbs_length (n : Nat) (bs : List Crumb) :
    (StructuredDataService.mapCrumbs n bs).length = bs.length := by
  induction bs generalizing n with
  | nil => rfl
  | cons c rest ih => simp [StructuredDataService.mapCrumbs, ih]

/-- Elementwise description of `mapCrumbs`. -/
theorem mapCrumbs_get (n : Nat) (bs : List Crumb) (i : Nat)
    (h : i < (StructuredDataService.mapCrumbs n bs).length)
    (h2 : i < bs.length) :
    (StructuredDataService.mapCrumbs n bs).get ⟨i, h⟩ =
      { atType := "ListItem"
        position := n + i + 1
        name := (bs.get ⟨i, h2⟩).name
        item := if strTruthy (bs.get ⟨i, h2⟩).url then (bs.get ⟨i, h2⟩).url
                else none } := by
  induction bs generalizing n i with
  | nil => simp at h2
  | cons c rest ih =>
    cases i with
    | zero => simp [StructuredDataService.mapCrumbs]
    | succ j =>
      have hj : j < (StructuredDataService.mapCrumbs (n + 1) rest).length := by
        simpa [StructuredDataService.mapCrumbs] using h
      have hj2 : j < rest.length := by simpa using h2
      have harith : n + 1 + j + 1 = n + (j + 1) + 1 := by omega
      simp only [StructuredDataService.mapCrumbs, List.get_cons_succ,
        List.get_cons_succ]
      rw [ih (n + 1) j hj hj2, harith]

/-- The elementwise properties of a built breadcrumb list. -/
theorem breadcrumb_item_props (bs : List Crumb) (i : Nat)
    (hi : i < bs.length)
    (hL : i < (StructuredDataService.mapCrumbs 0 bs).length) :
    ((StructuredDataService.mapCrumbs 0 bs).get ⟨i, hL⟩).atType =
      "ListItem" ∧
    ((StructuredDataService.mapCrumbs 0 bs).get ⟨i, hL⟩).position = i + 1 ∧
    ((StructuredDataService.mapCrumbs 0 bs).get ⟨i, hL⟩).name =
      (bs.get ⟨i, hi⟩).name ∧
    ((StructuredDataService.mapCrumbs 0 bs).get ⟨i, hL⟩).item.isSome =
      strTruthy (bs.get ⟨i, hi⟩).url ∧
    ((StructuredDataService.mapCrumbs 0 bs).get ⟨i, hL⟩).item ≠ some "" := by
  rw [mapCrumbs_get 0 bs i hL hi]
  refine ⟨rfl, by simp, rfl, ?_, ?_⟩
  · cases ho : (bs.get ⟨i, hi⟩).url <;>
      simp [strTruthy, ho, isSome_if_empty]
  · cases ho : (bs.get ⟨i, hi⟩).url <;> simp [strTruthy, ho] <;>
      intro h <;> simp [h]

/-- **C8 (amended).** The four schema builders are pure functions that
always set `@context` and `@type` plus the required fields, and include
each optional top-level field only when the corresponding source value is
present and never as an empty string — with one exception the
counterexample forces: `Organization.contactPoint` is emitted whenever
either contact field is present, and its `telephone` subfield is the
empty string when `contactPhone` is absent. -/
theorem c8_amended_builders (u : User) (od : OrgInput) (wd : WebInput)
    (bs : List Crumb) (i : Nat) (hi : i < bs.length) :
    (StructuredDataService.createPersonSchema u).atContext =
      "https://schema.org/" ∧
    (StructuredDataService.createPersonSchema u).atType = "Person" ∧
    (StructuredDataService.createPersonSchema u).name = u.name ∧
    (StructuredDataService.createPersonSchema u).jobTitle.isSome =
      strTruthy u.jobTitle ∧
    (StructuredDataService.createPersonSchema u).jobTitle ≠ some "" ∧
    (StructuredDataService.createPersonSchema u).email.isSome =
      (u.email != "") ∧
    (StructuredDataService.createPersonSchema u).email ≠ some "" ∧
    (StructuredDataService.createPersonSchema u).telephone.isSome =
      strTruthy u.phone ∧
    (StructuredDataService.createPersonSchema u).telephone ≠ some "" ∧
    (StructuredDataService.createPersonSchema u).image.isSome =
      strTruthy u.avatar ∧
    (StructuredDataService.createPersonSchema u).image ≠ some "" ∧
    (StructuredDataService.createPersonSchema u).url.isSome =
      strTruthy u.website ∧
    (StructuredDataService.createPersonSchema u).url ≠ some "" ∧
    (StructuredDataService.createPersonSchema u).address.isSome =
      u.address.isSome ∧
    (StructuredDataService.createPersonSchema u).worksFor.isSome =
      u.company.isSome ∧
    (StructuredDataService.createOrganizationSchema od).atContext =
      "https://schema.org/" ∧
    (StructuredDataService.createOrganizationSchema od).atType =
      "Organization" ∧
    (StructuredDataService.createOrganizationSchema od).name = od.name ∧
    (StructuredDataService.createOrganizationSchema od).url = od.url ∧
    (StructuredDataService.createOrganizationSchema od).description.isSome =
      strTruthy od.description ∧
    (StructuredDataService.createOrganizationSchema od).description ≠
      some "" ∧
    (StructuredDataService.createOrganizationSchema od).logo.isSome =
      strTruthy od.logo ∧
    (StructuredDataService.createOrganizationSchema od).logo ≠ some "" ∧
    (StructuredDataService.createOrganizationSchema od).contactPoint.isSome
      = (strTruthy od.contactPhone || strTruthy od.contactEmail) ∧
    (StructuredDataService.createOrganizationSchema od).contactPoint.map
        ContactPoint.telephone =
      (if strTruthy od.contactPhone || strTruthy od.contactEmail then
        some (strOrEmpty od.contactPhone) else none) ∧
    (StructuredDataService.createOrganizationSchema od).contactPoint.map
        ContactPoint.email =
      (if strTruthy od.contactPhone || strTruthy od.contactEmail then
        some od.contactEmail else none) ∧
    (StructuredDataService.createWebSiteSchema wd).atContext =
      "https://schema.org/" ∧
    (StructuredDataService.createWebSiteSchema wd).atType = "WebSite" ∧
    (StructuredDataService.createWebSiteSchema wd).name = wd.name ∧
    (StructuredDataService.createWebSiteSchema wd).url = wd.url ∧
    (StructuredDataService.createWebSiteSchema wd).description.isSome =
      strTruthy wd.description ∧
    (StructuredDataService.createWebSiteSchema wd).description ≠ some "" ∧
    (StructuredDataService.createWebSiteSchema wd).potentialAction.isSome =
      strTruthy wd.searchUrl ∧
    (StructuredDataService.createWebSiteSchema wd).potentialAction.map
        SearchAction.target =
      (if strTruthy wd.searchUrl then some (strOrEmpty wd.searchUrl)
       else none) ∧
    (StructuredDataService.createBreadcrumbSchema bs).atContext =
      "https://schema.org/" ∧
    (StructuredDataService.createBreadcrumbSchema bs).atType =
      "BreadcrumbList" ∧
    (StructuredDataService.createBreadcrumbSchema bs).itemListElement.length
      = bs.length ∧
    ∀ hL : i <
      (StructuredDataService.createBreadcrumbSchema bs).itemListElement.length,
      ((StructuredDataService.createBreadcrumbSchema
          bs).itemListElement.get ⟨i, hL⟩).atType = "ListItem" ∧
      ((StructuredDataService.createBreadcrumbSchema
          bs).itemListElement.get ⟨i, hL⟩).position = i + 1 ∧
      ((StructuredDataService.createBreadcrumbSchema
          bs).itemListElement.get ⟨i, hL⟩).name = (bs.get ⟨i, hi⟩).name ∧
      ((StructuredDataService.createBreadcrumbSchema
          bs).itemListElement.get ⟨i, hL⟩).item.isSome =
        strTruthy (bs.get ⟨i, hi⟩).url ∧
      ((StructuredDataService.createBreadcrumbSchema
          bs).itemListElement.get ⟨i, hL⟩).item ≠ some "" := by
  refine ⟨rfl, rfl, rfl, ?_, ?_, ?_, ?_, ?_, ?_, ?_, ?_, ?_, ?_, ?_, ?_,
    rfl, rfl, rfl, rfl, ?_, ?_, ?_, ?_, ?_, ?_, ?_,
    rfl, rfl, rfl, rfl, ?_, ?_, ?_, ?_,
    rfl, rfl, ?_, ?_⟩
  · cases ho : u.jobTitle <;>
      simp [StructuredDataService.createPersonSchema, strTruthy, ho,
        isSome_if_empty]
  · cases ho : u.jobTitle <;>
      simp [StructuredDataService.createPersonSchema, strTruthy, ho] <;>
      intro h <;> simp [h]
  · cases he : decide (u.email = "") <;>
      simp_all [StructuredDataService.createPersonSchema, bne]
  · by_cases he : u.email = "" <;>
      simp [StructuredDataService.createPersonSchema, he]
  · cases ho : u.phone <;>
      simp [StructuredDataService.createPersonSchema, strTruthy, ho,
        isSome_if_empty]
  · cases ho : u.phone <;>
      simp [StructuredDataService.createPersonSchema, strTruthy, ho] <;>
      intro h <;> simp [h]
  · cases ho : u.avatar <;>
      simp [StructuredDataService.createPersonSchema, strTruthy, ho,
        isSome_if_empty]
  · cases ho : u.avatar <;>
      simp [StructuredDataService.createPersonSchema, strTruthy, ho] <;>
      intro h <;> simp [h]
  · cases ho : u.website <;>
      simp [StructuredDataService.createPersonSchema, strTruthy, ho,
        isSome_if_empty]
  · cases ho : u.website <;>
      simp [StructuredDataService.createPersonSchema, strTruthy, ho] <;>
      intro h <;> simp [h]
  · cases ho : u.address <;>
      simp [StructuredDataService.createPersonSchema, ho]
  · cases ho : u.company <;>
      simp [StructuredDataService.createPersonSchema, ho]
  · cases ho : od.description <;>
      simp [StructuredDataService.createOrganizationSchema, strTruthy, ho,
        isSome_if_empty]
  · cases ho : od.description <;>
      simp [StructuredDataService.createOrganizationSchema, strTruthy, ho] <;>
      intro h <;> simp [h]
  · cases ho : od.logo <;>
      simp [StructuredDataService.createOrganizationSchema, strTruthy, ho,
        isSome_if_empty]
  · cases ho : od.logo <;>
      simp [StructuredDataService.createOrganizationSchema, strTruthy, ho] <;>
      intro h <;> simp [h]
  · by_cases hc : (strTruthy od.contactPhone || strTruthy od.contactEmail)
      = true <;> simp_all [StructuredDataService.createOrganizationSchema]
  · by_cases hc : (strTruthy od.contactPhone || strTruthy od.contactEmail)
      = true <;> simp_all [StructuredDataService.createOrganizationSchema]
  · by_cases hc : (strTruthy od.contactPhone || strTruthy od.contactEmail)
      = true <;> simp_all [StructuredDataService.createOrganizationSchema]
  · cases ho : wd.description <;>
      simp [StructuredDataService.createWebSiteSchema, strTruthy, ho,
        isSome_if_empty]
  · cases ho : wd.description <;>
      simp [StructuredDataService.createWebSiteSchema, strTruthy, ho] <;>
      intro h <;> simp [h]
  · by_cases hc : strTruthy wd.searchUrl = true <;>
      simp_all [StructuredDataService.createWebSiteSchema]
  · by_cases hc : strTruthy wd.searchUrl = true <;>
      simp_all [StructuredDataService.createWebSiteSchema]
  · exact mapCrumbs_length 0 bs
  · intro hL
    exact breadcrumb_item_props bs i hi hL

/-- C8 (amended) witness at concrete inputs (Alice, the counterexample
organization, a website record, concrete breadcrumbs at index 0). -/
theorem c8_amended_builders_witness :
    (StructuredDataService.createPersonSchema UserService.alice).name =
      "Alice Johnson" ∧
    ((StructuredDataService.createBreadcrumbSchema
        c8crumbs).itemListElement.get ⟨0, by decide⟩).position = 1 := by
  obtain ⟨-, -, h3, rest⟩ := c8_amended_builders UserService.alice
    c8orgInput { name := "W", url := "https://w.example" } c8crumbs 0
    (by decide)
  have hlast := rest.2.2.2.2.2.2.2.2.2.2.2.2.2.2.2.2.2.2.2.2.2.2.2.2.2.2.2.2.2.2.2.2.2.2
  exact ⟨h3, (hlast (by decide)).2.1⟩

/-! ## C9: structured-data isolation -/

/-- `docsAt` on a cons cell. -/
theorem docsAt_cons (eid : String) (e : String × StructuredData)
    (l : StructuredDataService.SDState) :
    StructuredDataService.docsAt eid (e :: l) =
      if e.1 = eid then e.2 :: StructuredDataService.docsAt eid l
      else StructuredDataService.docsAt eid l := by
  simp only [StructuredDataService.docsAt, List.filter_cons]
  by_cases he : e.1 = eid <;> simp [he]

/-- `docsAt` distributes over append. -/
theorem docsAt_append (eid : String)
    (l1 l2 : StructuredDataService.SDState) :
    StructuredDataService.docsAt eid (l1 ++ l2) =
      StructuredDataService.docsAt eid l1 ++
        StructuredDataService.docsAt eid l2 := by
  simp [StructuredDataService.docsAt, List.filter_append]

/-- Removing an absent element id is a no-op. -/
theorem removeElementById_not_mem (eid : String)
    (s : StructuredDataService.SDState) (h : eid ∉ s.map Prod.fst) :
    StructuredDataService.removeElementById eid s = s := by
  induction s with
  | nil => rfl
  | cons e rest ih =>
    simp only [List.map_cons, List.mem_cons, not_or] at h
    simp only [StructuredDataService.removeElementById]
    rw [if_neg fun he => h.1 he.symm, ih h.2]

/-- After removing the first element with this id, no document remains at
it, provided at most one was present. -/
theorem docsAt_remove_self (eid : String)
    (s : StructuredDataService.SDState)
    (h : (StructuredDataService.docsAt eid s).length ≤ 1) :
    StructuredDataService.docsAt eid
      (StructuredDataService.removeElementById eid s) = [] := by
  induction s with
  | nil => rfl
  | cons e rest ih =>
    by_cases he : e.1 = eid
    · simp only [StructuredDataService.removeElementById, if_pos he]
      rw [docsAt_cons, if_pos he] at h
      simp only [List.length_cons] at h
      have : (StructuredDataService.docsAt eid rest).length = 0 := by omega
      exact List.eq_nil_of_length_eq_zero this
    · simp only [StructuredDataService.removeElementById, if_neg he]
      rw [docsAt_cons, if_neg he]
      rw [docsAt_cons, if_neg he] at h
      exact ih h

/-- Removing one element id leaves the documents at any other id
untouched. -/
theorem docsAt_remove_ne (eid kid : String)
    (s : StructuredDataService.SDState) (h : eid ≠ kid) :
    StructuredDataService.docsAt eid
        (StructuredDataService.removeElementById kid s) =
      StructuredDataService.docsAt eid s := by
  induction s with
  | nil => rfl
  | cons e rest ih =>
    by_cases he : e.1 = kid
    · simp only [StructuredDataService.removeElementById, if_pos he]
      rw [docsAt_cons, if_neg (by rw [he]; exact fun hx => h hx.symm)]
    · simp only [StructuredDataService.removeElementById, if_neg he]
      rw [docsAt_cons, docsAt_cons, ih]

/-- **C9.** Structured-data operations on distinct ids do not interfere:
`addStructuredData` removes any existing document at the derived key
before inserting exactly one new one; `removeStructuredData` is a no-op
when the id is absent; both operations leave documents at other element
ids untouched; and the scenario `upsert(docX, "x"); upsert(docY, "y");
remove("x")` leaves exactly the document at `"y"` present. -/
theorem c9_structured_data_isolation (data : StructuredData)
    (id eid : String) (s : StructuredDataService.SDState) :
    ((StructuredDataService.docsAt (StructuredDataService.getScriptId id)
        s).length ≤ 1 →
      StructuredDataService.docsAt (StructuredDataService.getScriptId id)
        (StructuredDataService.addStructuredData data id s) = [data]) ∧
    (StructuredDataService.getScriptId id ∉ s.map Prod.fst →
      StructuredDataService.removeStructuredData id s = s) ∧
    (eid ≠ StructuredDataService.getScriptId id →
      StructuredDataService.docsAt eid
          (StructuredDataService.addStructuredData data id s) =
        StructuredDataService.docsAt eid s ∧
      StructuredDataService.docsAt eid
          (StructuredDataService.removeStructuredData id s) =
        StructuredDataService.docsAt eid s) ∧
    StructuredDataService.removeStructuredData "x"
        (StructuredDataService.addStructuredData c9docY "y"
          (StructuredDataService.addStructuredData c9docX "x" [])) =
      [(StructuredDataService.getScriptId "y", c9docY)] := by
  refine ⟨?_, ?_, ?_, by decide⟩
  · intro h
    rw [StructuredDataService.addStructuredData,
      StructuredDataService.removeStructuredData, docsAt_append,
      docsAt_remove_self _ _ h, docsAt_cons, if_pos rfl]
    rfl
  · exact removeElementById_not_mem _ s
  · intro h
    constructor
    · rw [StructuredDataService.addStructuredData,
        StructuredDataService.removeStructuredData, docsAt_append,
        docsAt_remove_ne _ _ _ h, docsAt_cons,
        if_neg fun hx => h hx.symm]
      simp [StructuredDataService.docsAt]
    · exact docsAt_remove_ne _ _ _ h

/-- C9 witness: the hypotheses discharged at concrete inputs (the empty
script store and distinct ids). -/
theorem c9_structured_data_isolation_witness :
    StructuredDataService.docsAt (StructuredDataService.getScriptId "x")
      (StructuredDataService.addStructuredData c9docX "x" []) = [c9docX] ∧
    StructuredDataService.removeStructuredData "x"
      ([] : StructuredDataService.SDState) = [] ∧
    StructuredDataService.docsAt "other"
      (StructuredDataService.addStructuredData c9docX "x" []) =
      StructuredDataService.docsAt "other" [] := by
  obtain ⟨h1, h2, h3, -⟩ :=
    c9_structured_data_isolation c9docX "x" "other" []
  exact ⟨h1 (by decide), h2 (by decide), (h3 (by decide)).1⟩
